import Mathlib

/-!
Shallow embedding of `src/reboot.py` (BrowserManager), a Windows browser-fleet
supervisor: launch controller, window locator/layout, resource monitor,
process health reconcile, scheduled restart timer.  Machine state is modelled
explicitly; each monitoring-loop iteration is a pure function from the sampled
environment to an action trace plus a new state.
-/

/-- Char-list prefix test (helper for the substring test). -/
def charsStartWith : List Char → List Char → Bool
  | [], _ => true
  | _ :: _, [] => false
  | a :: as, b :: bs => a == b && charsStartWith as bs

/-- Char-list contiguous-substring test (helper for the substring test). -/
def charsContain (needle : List Char) : List Char → Bool
  | [] => charsStartWith needle []
  | b :: bs => charsStartWith needle (b :: bs) || charsContain needle bs

/-- Python `needle in hay` substring test on strings. -/
def containsSub (needle hay : String) : Bool :=
  charsContain needle.data hay.data

/-- Python `s.lower()` (ASCII case folding, as the source only compares
ASCII executable names). -/
def strLower (s : String) : String :=
  String.mk (s.data.map Char.toLower)

/-- Constants from the source (`MONITOR_INTERVAL`, `SCHEDULE_CHECK_INTERVAL`,
`STOP_DELAY`, `self.STARTUP_PROTECTION_PERIOD`). -/
def MONITOR_INTERVAL : Nat := 60

def SCHEDULE_CHECK_INTERVAL : Nat := 60

def STOP_DELAY : Nat := 15

def STARTUP_PROTECTION_PERIOD : Nat := 90

/-- A row of `psutil.process_iter(['pid', 'name', 'exe', 'cmdline'])`
(`cmdline` already joined by spaces, as the source does). -/
structure ProcInfo where
  pid : Nat
  name : String
  exe : String
  cmdline : String
deriving DecidableEq, Repr

/-- An entry of `self.browser_processes`: either a real spawned process handle
or the `DummyProcess` placeholder inserted by `check_browser_processes`. -/
inductive ProcEntry where
  | real (pid : Nat)
  | dummy
deriving DecidableEq, Repr

/-- The per-process family test of `check_browser_processes` (reboot.py
lines 504-515): keyed off the resolved `self.browser_path`. -/
def matchesFamily (browserPath : String) (p : ProcInfo) : Bool :=
  let bp := strLower browserPath
  if containsSub "chrome" bp then
    containsSub "chrome.exe" (strLower p.name) && containsSub "chrome" (strLower p.exe)
  else if containsSub "msedge" bp then
    containsSub "msedge.exe" (strLower p.name) && containsSub "msedge" (strLower p.exe)
  else false

/-- `BrowserManager.check_browser_processes` (reboot.py lines 486-534):
with an unresolved path the process list is cleared; otherwise, if no live
process of the selected family exists the list is cleared, and if one exists
while the list is empty a `DummyProcess` placeholder is appended. -/
def check_browser_processes (browserPath : Option String) (sysProcs : List ProcInfo)
    (cur : List ProcEntry) : List ProcEntry :=
  match browserPath with
  | none => []
  | some bp =>
    if sysProcs.any (matchesFamily bp) then
      if cur.isEmpty then [ProcEntry.dummy] else cur
    else []

/-- The guard of the full-exit recovery in `monitor_resources` (line 463):
`if not self.browser_processes and self.browser_configs`. -/
def fullExitRecoveryFires (procs : List ProcEntry) (cfgs : List α) : Bool :=
  procs.isEmpty && !cfgs.isEmpty

/-- One entry of `self.browser_configs`: a named group of URLs. -/
structure BrowserGroup where
  name : String
  urls : List String
deriving DecidableEq, Repr

/-- The default group list of `BrowserManager.__init__` (lines 130-139). -/
def defaultBrowserConfigs : List BrowserGroup :=
  [⟨"默认组1", ["https://www.4399.com", "https://www.acfun.cn", "https://live.bilibili.com"]⟩]

/-- `self.browser_configs = browser_configs or [...]` in `__init__`
(line 130): `None` and the empty list both fall back to the default group. -/
def initBrowserConfigs (given : Option (List BrowserGroup)) : List BrowserGroup :=
  match given with
  | none => defaultBrowserConfigs
  | some l => if l.isEmpty then defaultBrowserConfigs else l

/-- Immutable configuration plus the environment a monitor tick runs in:
`now` is the current wall-clock second; `spawnPids` and `locProfiles` are the
process ids a `start_all_browsers` round spawns and the window profiles its
locator records (supplied by the OS environment). -/
structure Env where
  cfgConfigs : List BrowserGroup
  path : Option String
  maxCpu : ℚ
  maxMem : ℚ
  spawnPids : List Nat
  locProfiles : List Nat
  now : Nat
deriving DecidableEq, Repr

/-- The mutable `RuntimeState` of `BrowserManager`: `last_start_time`,
`browser_processes`, `browser_profiles` (window records, kept as handles). -/
structure MonState where
  lastStart : Option Nat
  procs : List ProcEntry
  profiles : List Nat
deriving DecidableEq, Repr

/-- Primitive actions a monitoring-loop iteration performs, in order. -/
inductive Act where
  | restartWith (reason : String)
  | stopAll
  | sleep (seconds : Nat)
  | startAll
  | clearProcs
  | insertDummy
deriving DecidableEq, Repr

/-- The log reason of a CPU-threshold forced restart (line 453). -/
def cpuReason : String := "CPU使用率过高"

/-- The log reason of a memory-threshold forced restart (line 457). -/
def memReason : String := "内存使用率过高"

/-- `BrowserManager.force_restart` (lines 536-541):
log the reason, `stop_all_browsers`, sleep `STOP_DELAY`, `start_all_browsers`. -/
def forceRestartActs (reason : String) : List Act :=
  [Act.restartWith reason, Act.stopAll, Act.sleep STOP_DELAY, Act.startAll]

/-- The full-exit recovery in `monitor_resources` (lines 463-470):
`stop_all_browsers`, sleep 5 seconds, `start_all_browsers`. -/
def recoveryActs : List Act :=
  [Act.stopAll, Act.sleep 5, Act.startAll]

/-- State effect of one primitive action.  `stop_all_browsers` clears both the
process and the window set (lines 543-552); `start_all_browsers` records the
start timestamp and repopulates both sets (lines 617-633). -/
def applyAct (env : Env) (st : MonState) (a : Act) : MonState :=
  match a with
  | Act.restartWith _ => st
  | Act.stopAll => { st with procs := [], profiles := [] }
  | Act.sleep _ => st
  | Act.startAll =>
      { lastStart := some env.now
        procs := env.spawnPids.map ProcEntry.real
        profiles := env.locProfiles }
  | Act.clearProcs => { st with procs := [] }
  | Act.insertDummy => { st with procs := st.procs ++ [ProcEntry.dummy] }

/-- Run a list of primitive actions from a state. -/
def runActs (env : Env) (st : MonState) (acts : List Act) : MonState :=
  acts.foldl (applyAct env) st

/-- The startup-protection test of `monitor_resources` (lines 442-448):
protection holds when a start time is recorded and less than
`STARTUP_PROTECTION_PERIOD` seconds have elapsed since it. -/
def inStartupProtection (st : MonState) (now : Nat) : Bool :=
  match st.lastStart with
  | some t => decide (now - t < STARTUP_PROTECTION_PERIOD)
  | none => false

/-- Lines 450-453 of `monitor_resources`: the CPU-threshold comparison,
skipped entirely during startup protection. -/
def cpuBreachActs (env : Env) (st : MonState) (cpu : ℚ) : List Act :=
  if !inStartupProtection st env.now && decide (env.maxCpu < cpu) then
    forceRestartActs cpuReason
  else []

/-- Lines 455-457 of `monitor_resources`: the memory-threshold comparison,
performed on every tick. -/
def memBreachActs (env : Env) (mem : ℚ) : List Act :=
  if decide (env.maxMem < mem) then forceRestartActs memReason else []

/-- The action trace of `check_browser_processes` on the tick's process
enumeration `sysProcs`, given the process list `procsBefore` it starts from. -/
def reconcileActs (env : Env) (procsBefore : List ProcEntry)
    (sysProcs : List ProcInfo) : List Act :=
  match env.path with
  | none => [Act.clearProcs]
  | some bp =>
    if sysProcs.any (matchesFamily bp) then
      (if procsBefore.isEmpty then [Act.insertDummy] else [])
    else [Act.clearProcs]

/-- Lines 462-470 of `monitor_resources`: the full-exit recovery, run when the
reconciled process list is empty and a group is configured. -/
def recoveryTraceActs (procsAfter : List ProcEntry) (cfgs : List BrowserGroup) : List Act :=
  if fullExitRecoveryFires procsAfter cfgs then recoveryActs else []

/-- One iteration of `monitor_resources` (lines 434-472): CPU-threshold check
(skipped during startup protection), memory-threshold check, process
reconcile (`check_browser_processes`), then the full-exit recovery when the
process list ended up empty and a group is configured.  Returns the ordered
action trace together with the resulting state.  `cpu` and `mem` are the
`psutil` samples of this tick; `sysProcs` is the process enumeration the
reconcile step observes. -/
def monitor_resources_tick (env : Env) (st : MonState) (cpu mem : ℚ)
    (sysProcs : List ProcInfo) : List Act × MonState :=
  let a1 := cpuBreachActs env st cpu
  let s1 := runActs env st a1
  let a2 := memBreachActs env mem
  let s2 := runActs env s1 a2
  let a3 := reconcileActs env s2.procs sysProcs
  let s3 := runActs env s2 a3
  let a4 := recoveryTraceActs s3.procs env.cfgConfigs
  (a1 ++ a2 ++ a3 ++ a4, runActs env s3 a4)

/-- Number of stop-then-start sequences a trace executes (each sequence begins
with exactly one `stopAll`). -/
def stopStartCount (tr : List Act) : Nat :=
  tr.countP fun a => match a with
    | Act.stopAll => true
    | _ => false

/-- Concrete environment for the double-trigger scenario: Chrome selected,
thresholds 80/85, one configured group, startup protection long expired. -/
def envDouble : Env :=
  { cfgConfigs := [⟨"默认组1", ["https://live.bilibili.com"]⟩]
    path := some "c:\\program files\\google\\chrome\\application\\chrome.exe"
    maxCpu := 80
    maxMem := 85
    spawnPids := [101]
    locProfiles := [1]
    now := 1000 }

/-- Concrete state for the double-trigger scenario: fleet started at second 0. -/
def stDouble : MonState :=
  { lastStart := some 0, procs := [], profiles := [] }

/-- Concrete process enumeration for the double-trigger scenario: one live
Chrome process. -/
def sysProcsDouble : List ProcInfo :=
  [⟨200, "chrome.exe", "c:\\program files\\google\\chrome\\application\\chrome.exe", ""⟩]

lemma cpuBreachActs_eq_nil_of_prot (env : Env) (st : MonState) (cpu : ℚ)
    (h : inStartupProtection st env.now = true) : cpuBreachActs env st cpu = [] := by
  unfold cpuBreachActs
  simp [h]

lemma cpuBreachActs_eq_restart (env : Env) (st : MonState) (cpu : ℚ)
    (h : inStartupProtection st env.now = false) (hc : env.maxCpu < cpu) :
    cpuBreachActs env st cpu = forceRestartActs cpuReason := by
  unfold cpuBreachActs
  simp [h, hc]

lemma memBreachActs_eq_restart (env : Env) (mem : ℚ) (hm : env.maxMem < mem) :
    memBreachActs env mem = forceRestartActs memReason := by
  unfold memBreachActs
  simp [hm]

lemma restartWith_notMem_reconcileActs (env : Env) (pb : List ProcEntry)
    (sp : List ProcInfo) (r : String) : Act.restartWith r ∉ reconcileActs env pb sp := by
  unfold reconcileActs
  cases env.path with
  | none => simp
  | some bp =>
    by_cases h1 : sp.any (matchesFamily bp) = true
    · by_cases h2 : pb.isEmpty = true <;> simp [h1, h2]
    · simp [h1]

lemma restartWith_notMem_recoveryTraceActs (pa : List ProcEntry)
    (cfgs : List BrowserGroup) (r : String) :
    Act.restartWith r ∉ recoveryTraceActs pa cfgs := by
  unfold recoveryTraceActs recoveryActs
  split <;> simp

lemma cpu_restart_notMem_memBreachActs (env : Env) (mem : ℚ) :
    Act.restartWith cpuReason ∉ memBreachActs env mem := by
  unfold memBreachActs forceRestartActs
  split <;> simp
  decide

/-- Claim C1: during the startup-protection period (elapsed < 90s since last
fleet start) the CPU-threshold comparison is skipped entirely, the
memory-threshold comparison is evaluated on every tick and a breach forces a
restart regardless of elapsed time, and outside protection a CPU breach
forces a restart. -/
theorem c1_startup_protection_gates_cpu_only (env : Env) (st : MonState)
    (cpu mem : ℚ) (sysProcs : List ProcInfo) :
    (inStartupProtection st env.now = true →
      Act.restartWith cpuReason ∉ (monitor_resources_tick env st cpu mem sysProcs).1)
    ∧ (env.maxMem < mem →
      Act.restartWith memReason ∈ (monitor_resources_tick env st cpu mem sysProcs).1)
    ∧ (inStartupProtection st env.now = false → env.maxCpu < cpu →
      Act.restartWith cpuReason ∈ (monitor_resources_tick env st cpu mem sysProcs).1) := by
  unfold monitor_resources_tick
  refine ⟨?_, ?_, ?_⟩
  · intro h
    rw [cpuBreachActs_eq_nil_of_prot env st cpu h]
    simp only [List.nil_append, List.mem_append, not_or]
    exact ⟨⟨cpu_restart_notMem_memBreachActs env mem,
            restartWith_notMem_reconcileActs _ _ _ _⟩,
           restartWith_notMem_recoveryTraceActs _ _ _⟩
  · intro hm
    rw [memBreachActs_eq_restart env mem hm]
    simp [forceRestartActs]
  · intro h hc
    rw [cpuBreachActs_eq_restart env st cpu h hc]
    simp [forceRestartActs]

/-- Witness for C1: at 30s after fleet start (inside protection), a CPU sample
of 99% triggers no CPU restart while a memory sample of 99% still forces a
memory restart. -/
def envProt : Env :=
  { cfgConfigs := defaultBrowserConfigs
    path := some "c:\\program files\\google\\chrome\\application\\chrome.exe"
    maxCpu := 80
    maxMem := 85
    spawnPids := [101]
    locProfiles := [1]
    now := 30 }

def stProt : MonState :=
  { lastStart := some 0, procs := [ProcEntry.real 101], profiles := [1] }

theorem c1_startup_protection_gates_cpu_only_witness :
    inStartupProtection stProt envProt.now = true
    ∧ Act.restartWith cpuReason ∉ (monitor_resources_tick envProt stProt 99 99 []).1
    ∧ Act.restartWith memReason ∈ (monitor_resources_tick envProt stProt 99 99 []).1 :=
  ⟨by decide,
   (c1_startup_protection_gates_cpu_only envProt stProt 99 99 []).1 (by decide),
   (c1_startup_protection_gates_cpu_only envProt stProt 99 99 []).2.1 (by decide)⟩

/-- Counterexample to claim C2: with startup protection expired, a CPU sample
of 90% (> 80%) and a memory sample of 90% (> 85%) in the same monitoring tick
each execute their own stop-delay-start sequence — the tick performs two such
sequences, not exactly one as the claim states; nothing serializes them. -/
theorem c2_counterexample_double_breach_two_restarts :
    stopStartCount (monitor_resources_tick envDouble stDouble 90 90 sysProcsDouble).1 = 2
    ∧ stopStartCount (monitor_resources_tick envDouble stDouble 90 90 sysProcsDouble).1 ≠ 1 := by
  constructor <;> decide

/-- Claim C2 (amended): restart triggers are not serialized — whenever two
restart triggers occur in the same monitoring tick (a CPU breach and a memory
breach), the tick executes at least two complete stop-delay-start sequences,
one per trigger; there is no in-flight no-op. -/
theorem c2_amended_concurrent_triggers_each_restart (env : Env) (st : MonState)
    (cpu mem : ℚ) (sysProcs : List ProcInfo)
    (hp : inStartupProtection st env.now = false)
    (hc : env.maxCpu < cpu) (hm : env.maxMem < mem) :
    2 ≤ stopStartCount (monitor_resources_tick env st cpu mem sysProcs).1 := by
  unfold stopStartCount monitor_resources_tick
  rw [cpuBreachActs_eq_restart env st cpu hp hc, memBreachActs_eq_restart env mem hm]
  simp only [List.countP_append]
  have h1 : (forceRestartActs cpuReason).countP
      (fun a => match a with | Act.stopAll => true | _ => false) = 1 := by decide
  have h2 : (forceRestartActs memReason).countP
      (fun a => match a with | Act.stopAll => true | _ => false) = 1 := by decide
  omega

/-- Witness for the amended C2 at the concrete double-breach input. -/
theorem c2_amended_concurrent_triggers_each_restart_witness :
    2 ≤ stopStartCount (monitor_resources_tick envDouble stDouble 90 90 sysProcsDouble).1 :=
  c2_amended_concurrent_triggers_each_restart envDouble stDouble 90 90 sysProcsDouble
    (by decide) (by decide) (by decide)

lemma reconcileActs_eq_clear (env : Env) (pb : List ProcEntry) (sp : List ProcInfo)
    (bp : String) (hpath : env.path = some bp)
    (hnone : sp.any (matchesFamily bp) = false) :
    reconcileActs env pb sp = [Act.clearProcs] := by
  unfold reconcileActs
  rw [hpath]
  simp [hnone]

lemma initBrowserConfigs_ne_nil (g : Option (List BrowserGroup)) :
    initBrowserConfigs g ≠ [] := by
  unfold initBrowserConfigs
  cases g with
  | none => decide
  | some l =>
    by_cases h : l.isEmpty = true
    · simp [h]
      decide
    · simp [h]
      intro hl
      rw [hl] at h
      exact h rfl

/-- Claim C4: when the reconcile step finds zero live processes of the
selected family and the configured group list is non-empty (which the
constructor guarantees), the tick's trace ends with the process-list clear
followed by the full stop-then-start recovery whose settle delay is 5 seconds
— the stop step clears both the process and the window set, and the 5-second
delay is distinct from the 15-second `STOP_DELAY` of a threshold-triggered
forced restart. -/
theorem c4_reconcile_zero_processes_recovery (env : Env) (st : MonState)
    (cpu mem : ℚ) (sysProcs : List ProcInfo) (bp : String)
    (hpath : env.path = some bp)
    (hnone : sysProcs.any (matchesFamily bp) = false)
    (hcfg : env.cfgConfigs ≠ []) :
    (∃ pre, (monitor_resources_tick env st cpu mem sysProcs).1
        = pre ++ [Act.clearProcs] ++ recoveryActs)
    ∧ recoveryActs = [Act.stopAll, Act.sleep 5, Act.startAll]
    ∧ (∀ s : MonState, (applyAct env s Act.stopAll).procs = []
        ∧ (applyAct env s Act.stopAll).profiles = [])
    ∧ (∀ s : MonState, (applyAct env s Act.clearProcs).procs = [])
    ∧ Act.sleep 5 ∈ recoveryActs
    ∧ (∀ r : String, Act.sleep STOP_DELAY ∈ forceRestartActs r)
    ∧ (5 : Nat) ≠ STOP_DELAY
    ∧ (∀ g : Option (List BrowserGroup), initBrowserConfigs g ≠ []) := by
  refine ⟨?_, rfl, fun s => ⟨rfl, rfl⟩, fun s => rfl, by decide, fun r => by
    simp [forceRestartActs], by decide, initBrowserConfigs_ne_nil⟩
  simp only [monitor_resources_tick]
  refine ⟨cpuBreachActs env st cpu ++ memBreachActs env mem, ?_⟩
  rw [reconcileActs_eq_clear env _ sysProcs bp hpath hnone]
  have hrec : recoveryTraceActs
      (runActs env (runActs env (runActs env st (cpuBreachActs env st cpu))
        (memBreachActs env mem)) [Act.clearProcs]).procs env.cfgConfigs = recoveryActs := by
    unfold recoveryTraceActs fullExitRecoveryFires runActs
    simp [applyAct]
    intro h
    exact absurd h hcfg
  rw [hrec]

/-- Witness for C4: concrete tick (no threshold breach, empty process
enumeration, non-empty group list). -/
def envC4 : Env :=
  { cfgConfigs := defaultBrowserConfigs
    path := some "c:\\program files\\google\\chrome\\application\\chrome.exe"
    maxCpu := 80
    maxMem := 85
    spawnPids := [55]
    locProfiles := [7]
    now := 500 }

def stC4 : MonState :=
  { lastStart := some 0, procs := [ProcEntry.real 55], profiles := [7] }

theorem c4_reconcile_zero_processes_recovery_witness :
    (∃ pre, (monitor_resources_tick envC4 stC4 10 10 []).1
        = pre ++ [Act.clearProcs] ++ recoveryActs)
    ∧ recoveryActs = [Act.stopAll, Act.sleep 5, Act.startAll]
    ∧ (∀ s : MonState, (applyAct envC4 s Act.stopAll).procs = []
        ∧ (applyAct envC4 s Act.stopAll).profiles = [])
    ∧ (∀ s : MonState, (applyAct envC4 s Act.clearProcs).procs = [])
    ∧ Act.sleep 5 ∈ recoveryActs
    ∧ (∀ r : String, Act.sleep STOP_DELAY ∈ forceRestartActs r)
    ∧ (5 : Nat) ≠ STOP_DELAY
    ∧ (∀ g : Option (List BrowserGroup), initBrowserConfigs g ≠ []) :=
  c4_reconcile_zero_processes_recovery envC4 stC4 10 10 []
    "c:\\program files\\google\\chrome\\application\\chrome.exe" rfl (by decide) (by decide)

/-- Claim C9: after a reconcile run with a resolved browser path, the process
list is non-empty exactly when some live process of the selected family
exists; with none it is cleared, and with one alive but an empty list the
`DummyProcess` placeholder is inserted, so the full-exit recovery guard never
fires while the family is alive. -/
theorem c9_process_set_nonempty_iff_family_alive (bp : String)
    (sysProcs : List ProcInfo) (cur : List ProcEntry) (cfgs : List BrowserGroup) :
    ((check_browser_processes (some bp) sysProcs cur).isEmpty = false
        ↔ sysProcs.any (matchesFamily bp) = true)
    ∧ (sysProcs.any (matchesFamily bp) = false →
        check_browser_processes (some bp) sysProcs cur = [])
    ∧ (sysProcs.any (matchesFamily bp) = true → cur = [] →
        check_browser_processes (some bp) sysProcs cur = [ProcEntry.dummy])
    ∧ (sysProcs.any (matchesFamily bp) = true →
        fullExitRecoveryFires (check_browser_processes (some bp) sysProcs cur) cfgs
          = false) := by
  unfold check_browser_processes fullExitRecoveryFires
  by_cases ha : sysProcs.any (matchesFamily bp) = true
  · by_cases hc : cur.isEmpty = true
    · simp [ha, hc]
    · simp [ha, hc]
      intro h
      rw [h] at hc
      exact absurd rfl hc
  · simp [ha]

/-- Witness for C9: one live Edge process, empty current list, default groups. -/
def sysProcsEdge : List ProcInfo :=
  [⟨300, "msedge.exe", "c:\\program files (x86)\\microsoft\\edge\\application\\msedge.exe", ""⟩]

theorem c9_process_set_nonempty_iff_family_alive_witness :
    check_browser_processes
        (some "c:\\program files (x86)\\microsoft\\edge\\application\\msedge.exe")
        sysProcsEdge [] = [ProcEntry.dummy]
    ∧ fullExitRecoveryFires
        (check_browser_processes
          (some "c:\\program files (x86)\\microsoft\\edge\\application\\msedge.exe")
          sysProcsEdge []) defaultBrowserConfigs = false :=
  ⟨(c9_process_set_nonempty_iff_family_alive _ sysProcsEdge [] defaultBrowserConfigs).2.2.1
      (by decide) rfl,
   (c9_process_set_nonempty_iff_family_alive _ sysProcsEdge [] defaultBrowserConfigs).2.2.2
      (by decide)⟩

/-- The message of the `FileNotFoundError` raised by `create_browser_args`
(line 265) when `self.browser_path` is unset. -/
def browserPathMissingMsg : String := "浏览器路径未找到"

/-- `BrowserManager.create_browser_args` (lines 262-274): raises when the
browser path is unset, otherwise builds the argument vector
`[path, "--new-window", url]`. -/
def create_browser_args (browserPath : Option String) (url : String) :
    Except String (List String) :=
  match browserPath with
  | none => Except.error browserPathMissingMsg
  | some p => Except.ok [p, "--new-window", url]

/-- One iteration of the spawn loop of `open_urls_in_tabs` (lines 288-314):
argument creation precedes the `subprocess.Popen` call; a `FileNotFoundError`
is caught, logged (collected here) and the loop continues with the next URL. -/
def spawnStep (browserPath : Option String)
    (acc : List (List String) × List String) (url : String) :
    List (List String) × List String :=
  match create_browser_args browserPath url with
  | Except.error e => (acc.1, acc.2 ++ [e])
  | Except.ok args => (acc.1 ++ [args], acc.2)

/-- The spawn phase of `open_urls_in_tabs`: returns the argument vectors of
the processes actually spawned and the logged launch errors, in order. -/
def open_urls_spawn (browserPath : Option String) (urls : List String) :
    List (List String) × List String :=
  urls.foldl (spawnStep browserPath) ([], [])

/-- `__init__` lines 155-158: if no browser path could be resolved the
constructor calls `sys.exit(1)` (configuration error) before any launch. -/
def initBrowserPath (detected : Option String) : Except Nat String :=
  match detected with
  | none => Except.error 1
  | some p => Except.ok p

lemma open_urls_spawn_none_aux (urls : List String)
    (acc : List (List String) × List String) :
    urls.foldl (spawnStep none) acc
      = (acc.1, acc.2 ++ urls.map (fun _ => browserPathMissingMsg)) := by
  induction urls generalizing acc with
  | nil => simp
  | cons u rest ih =>
    simp only [List.foldl_cons, List.map_cons]
    rw [ih]
    simp [spawnStep, create_browser_args]

/-- Claim C3: with the browser executable path unset, every URL's launch
attempt fails with the configuration error before any spawn is attempted
(argument creation raises first), so no URL of the group is spawned; and the
constructor itself exits with code 1 when no path resolves. -/
theorem c3_unset_browser_path_no_spawn (urls : List String) :
    (open_urls_spawn none urls).1 = []
    ∧ (open_urls_spawn none urls).2 = urls.map (fun _ => browserPathMissingMsg)
    ∧ (∀ url : String, create_browser_args none url
        = Except.error browserPathMissingMsg)
    ∧ initBrowserPath none = Except.error 1 := by
  refine ⟨?_, ?_, fun url => rfl, rfl⟩
  · unfold open_urls_spawn
    rw [open_urls_spawn_none_aux]
  · unfold open_urls_spawn
    rw [open_urls_spawn_none_aux]
    simp

/-- `BrowserManager.cleanup_chrome_processes` (lines 554-610): whether the
cleanup pass terminates process `p`, given the resolved browser path and the
supervisor's own pid.  Skips the supervisor's own process and
`msedgewebview2.exe`; then terminates only processes of the selected family,
excluding anything whose name, path or command line mentions steam. -/
def cleanupTerminates (browserPath : String) (ownPid : Nat) (p : ProcInfo) : Bool :=
  if p.pid == ownPid then false
  else if containsSub "msedgewebview2.exe" (strLower p.name) then false
  else if containsSub "chrome" (strLower browserPath) then
    containsSub "chrome" (strLower p.name) && !containsSub "steam" (strLower p.name)
      && (containsSub "chrome" (strLower p.exe) || containsSub "chrome" (strLower p.cmdline))
      && !containsSub "steam" (strLower p.exe) && !containsSub "steam" (strLower p.cmdline)
  else if containsSub "msedge" (strLower browserPath) then
    containsSub "msedge.exe" (strLower p.name)
      && (containsSub "msedge" (strLower p.exe) || containsSub "edge" (strLower p.exe)
          || containsSub "msedge" (strLower p.cmdline))
      && !containsSub "steam" (strLower p.exe) && !containsSub "steam" (strLower p.cmdline)
  else false

/-- Claim C8: the cleanup pass never terminates the supervisor's own process,
never terminates `msedgewebview2.exe`, never terminates a process whose
path or command line mentions steam, and terminates only name-matching
processes of the currently selected browser family (so the other family and
unrelated applications are left untouched). -/
theorem c8_cleanup_terminates_only_selected_family (bp : String) (own : Nat)
    (p : ProcInfo) (h : cleanupTerminates bp own p = true) :
    p.pid ≠ own
    ∧ containsSub "msedgewebview2.exe" (strLower p.name) = false
    ∧ containsSub "steam" (strLower p.exe) = false
    ∧ containsSub "steam" (strLower p.cmdline) = false
    ∧ (containsSub "chrome" (strLower bp) = true →
        containsSub "chrome" (strLower p.name) = true
        ∧ containsSub "steam" (strLower p.name) = false
        ∧ (containsSub "chrome" (strLower p.exe) = true
            ∨ containsSub "chrome" (strLower p.cmdline) = true))
    ∧ (containsSub "chrome" (strLower bp) = false →
        containsSub "msedge" (strLower bp) = true
        ∧ containsSub "msedge.exe" (strLower p.name) = true) := by
  unfold cleanupTerminates at h
  by_cases h1 : (p.pid == own) = true
  · rw [if_pos h1] at h
    exact absurd h (by simp)
  rw [if_neg h1] at h
  by_cases h2 : containsSub "msedgewebview2.exe" (strLower p.name) = true
  · rw [if_pos h2] at h
    exact absurd h (by simp)
  rw [if_neg h2] at h
  have hpid : p.pid ≠ own := fun hh => h1 (by simp [hh])
  have hwv : containsSub "msedgewebview2.exe" (strLower p.name) = false :=
    Bool.eq_false_iff.mpr h2
  by_cases h3 : containsSub "chrome" (strLower bp) = true
  · rw [if_pos h3] at h
    simp only [Bool.and_eq_true, Bool.or_eq_true, Bool.not_eq_true'] at h
    obtain ⟨⟨⟨⟨hA, hB⟩, hCD⟩, hE⟩, hF⟩ := h
    exact ⟨hpid, hwv, hE, hF, fun _ => ⟨hA, hB, hCD⟩,
      fun hcc => absurd h3 (by simp [hcc])⟩
  rw [if_neg h3] at h
  by_cases h4 : containsSub "msedge" (strLower bp) = true
  · rw [if_pos h4] at h
    simp only [Bool.and_eq_true, Bool.or_eq_true, Bool.not_eq_true'] at h
    obtain ⟨⟨⟨hA, _⟩, hE⟩, hF⟩ := h
    exact ⟨hpid, hwv, hE, hF, fun hcc => absurd hcc h3,
      fun _ => ⟨h4, hA⟩⟩
  · rw [if_neg h4] at h
    exact absurd h (by simp)

/-- Witness for C8: a terminated residual Chrome renderer process. -/
def procChrome : ProcInfo :=
  ⟨7, "chrome.exe", "c:\\program files\\google\\chrome\\application\\chrome.exe",
   "chrome.exe --type=renderer"⟩

theorem c8_cleanup_terminates_only_selected_family_witness :
    procChrome.pid ≠ 42
    ∧ containsSub "msedgewebview2.exe" (strLower procChrome.name) = false
    ∧ containsSub "steam" (strLower procChrome.exe) = false
    ∧ containsSub "steam" (strLower procChrome.cmdline) = false
    ∧ (containsSub "chrome" (strLower "c:\\chrome\\chrome.exe") = true →
        containsSub "chrome" (strLower procChrome.name) = true
        ∧ containsSub "steam" (strLower procChrome.name) = false
        ∧ (containsSub "chrome" (strLower procChrome.exe) = true
            ∨ containsSub "chrome" (strLower procChrome.cmdline) = true))
    ∧ (containsSub "chrome" (strLower "c:\\chrome\\chrome.exe") = false →
        containsSub "msedge" (strLower "c:\\chrome\\chrome.exe") = true
        ∧ containsSub "msedge.exe" (strLower procChrome.name) = true) :=
  c8_cleanup_terminates_only_selected_family "c:\\chrome\\chrome.exe" 42 procChrome
    (by decide)

/-- The log reason of a scheduled restart (line 644). -/
def scheduledReason : String := "定时重启"

/-- State of the `scheduled_restart` loop: current time `t` (seconds since
loop start) and the pending deadline `next_restart`. -/
structure SchedState where
  t : Nat
  deadline : Nat
deriving DecidableEq, Repr

/-- `scheduled_restart` initial state (line 637): the deadline is computed
once at loop start as now (time 0) plus the restart interval. -/
def schedInit (R : Nat) : SchedState :=
  ⟨0, 0 + R⟩

/-- One iteration of the `scheduled_restart` loop (lines 640-648) with restart
interval `R` and restart duration `D`: if the deadline has passed, perform the
forced restart (reason "定时重启", taking `D` seconds) and recompute the
deadline from the completion time, then sleep `SCHEDULE_CHECK_INTERVAL`;
otherwise just sleep.  Returns the restarts fired this iteration (time and
reason) and the next state. -/
def schedStep (R D : Nat) (s : SchedState) : List (Nat × String) × SchedState :=
  if s.deadline ≤ s.t then
    ([(s.t, scheduledReason)], ⟨s.t + D + SCHEDULE_CHECK_INTERVAL, s.t + D + R⟩)
  else
    ([], ⟨s.t + SCHEDULE_CHECK_INTERVAL, s.deadline⟩)

/-- Run `n` iterations of the `scheduled_restart` loop, collecting the fired
restarts in order. -/
def schedRun (R D : Nat) : Nat → SchedState → List (Nat × String)
  | 0, _ => []
  | Nat.succ n, s => (schedStep R D s).1 ++ schedRun R D n (schedStep R D s).2

/-- The restarts fired by `n` iterations of `scheduled_restart` from loop
start (time 0 at fleet start). -/
def schedFires (R D n : Nat) : List (Nat × String) :=
  schedRun R D n (schedInit R)

lemma schedRun_time_lb (R D : Nat) :
    ∀ (n : Nat) (s : SchedState) (g : Nat × String), g ∈ schedRun R D n s → s.t ≤ g.1 := by
  intro n
  induction n with
  | zero => intro s g hg; simp [schedRun] at hg
  | succ m ih =>
    intro s g hg
    unfold schedRun schedStep at hg
    by_cases hd : s.deadline ≤ s.t
    · rw [if_pos hd] at hg
      simp only [List.mem_append, List.mem_singleton] at hg
      rcases hg with hg | hg
      · rw [hg]
      · have h2 : s.t + D + SCHEDULE_CHECK_INTERVAL ≤ g.1 := ih _ _ hg
        omega
    · rw [if_neg hd] at hg
      simp only [List.nil_append] at hg
      have h2 : s.t + SCHEDULE_CHECK_INTERVAL ≤ g.1 := ih _ _ hg
      omega

lemma schedRun_reason (R D : Nat) :
    ∀ (n : Nat) (s : SchedState) (g : Nat × String), g ∈ schedRun R D n s →
      g.2 = scheduledReason := by
  intro n
  induction n with
  | zero => intro s g hg; simp [schedRun] at hg
  | succ m ih =>
    intro s g hg
    unfold schedRun schedStep at hg
    by_cases hd : s.deadline ≤ s.t
    · rw [if_pos hd] at hg
      simp only [List.mem_append, List.mem_singleton] at hg
      rcases hg with hg | hg
      · rw [hg]
      · exact ih _ _ hg
    · rw [if_neg hd] at hg
      simp only [List.nil_append] at hg
      exact ih _ _ hg

/-- During the pre-deadline phase the first fire happens within one poll
interval after the deadline, and every later fire is at least one poll
interval after it. -/
lemma schedRun_first_fire (R D : Nat) :
    ∀ (n : Nat) (s : SchedState), s.t < s.deadline →
      s.deadline + SCHEDULE_CHECK_INTERVAL ≤ s.t + SCHEDULE_CHECK_INTERVAL * n →
      ∃ f rest, schedRun R D n s = (f, scheduledReason) :: rest
        ∧ s.deadline ≤ f ∧ f < s.deadline + SCHEDULE_CHECK_INTERVAL
        ∧ ∀ g ∈ rest, f + SCHEDULE_CHECK_INTERVAL ≤ g.1 := by
  intro n
  induction n with
  | zero =>
    intro s h1 h2
    exfalso
    simp only [Nat.mul_zero, Nat.add_zero] at h2
    omega
  | succ m ih =>
    intro s h1 h2
    rw [Nat.mul_succ] at h2
    have hstep : schedStep R D s = ([], ⟨s.t + SCHEDULE_CHECK_INTERVAL, s.deadline⟩) := by
      unfold schedStep
      rw [if_neg (by omega)]
    by_cases hnext : s.deadline ≤ s.t + SCHEDULE_CHECK_INTERVAL
    · -- the next iteration fires at s.t + SCHEDULE_CHECK_INTERVAL
      obtain ⟨m', hm'⟩ : ∃ m', m = m' + 1 := by
        refine ⟨m - 1, ?_⟩
        by_contra hm0
        have hm1 : m = 0 := by omega
        subst hm1
        omega
      subst hm'
      unfold schedRun
      rw [hstep]
      simp only [List.nil_append]
      have hstep2 : schedStep R D ⟨s.t + SCHEDULE_CHECK_INTERVAL, s.deadline⟩
          = ([(s.t + SCHEDULE_CHECK_INTERVAL, scheduledReason)],
             ⟨s.t + SCHEDULE_CHECK_INTERVAL + D + SCHEDULE_CHECK_INTERVAL,
              s.t + SCHEDULE_CHECK_INTERVAL + D + R⟩) := by
        unfold schedStep
        rw [if_pos hnext]
      unfold schedRun
      rw [hstep2]
      refine ⟨s.t + SCHEDULE_CHECK_INTERVAL, _, rfl, hnext, by omega, ?_⟩
      intro g hg
      have hlb : s.t + SCHEDULE_CHECK_INTERVAL + D + SCHEDULE_CHECK_INTERVAL ≤ g.1 :=
        schedRun_time_lb R D m' _ g hg
      omega
    · -- deadline still ahead: recurse
      unfold schedRun
      rw [hstep]
      simp only [List.nil_append]
      apply ih ⟨s.t + SCHEDULE_CHECK_INTERVAL, s.deadline⟩
      · show s.t + SCHEDULE_CHECK_INTERVAL < s.deadline
        omega
      · show s.deadline + SCHEDULE_CHECK_INTERVAL
          ≤ s.t + SCHEDULE_CHECK_INTERVAL + SCHEDULE_CHECK_INTERVAL * m
        omega

/-- Claim C5: the scheduled-restart loop computes its deadline once at loop
start as now + R, polls every `SCHEDULE_CHECK_INTERVAL` = 60 seconds, fires a
forced restart with the scheduled reason when now ≥ deadline, recomputes the
deadline from the restart's completion time (completion + R, not the missed
deadline + R), and consequently — with no other restart trigger — exactly one
scheduled restart fires in the window [R, R + 60) after fleet start, for any
restart duration `D` and any sufficiently long run. -/
theorem c5_scheduled_restart_window (R D n : Nat) (hR : 0 < R)
    (hn : R + SCHEDULE_CHECK_INTERVAL ≤ SCHEDULE_CHECK_INTERVAL * n) :
    ((schedFires R D n).countP
        (fun f => decide (R ≤ f.1) && decide (f.1 < R + SCHEDULE_CHECK_INTERVAL)) = 1)
    ∧ (∀ g ∈ schedFires R D n, g.2 = scheduledReason)
    ∧ (∀ s : SchedState, s.deadline ≤ s.t →
        (schedStep R D s).2.deadline = (s.t + D) + R
        ∧ (schedStep R D s).2.t = (s.t + D) + SCHEDULE_CHECK_INTERVAL)
    ∧ (∀ s : SchedState, s.t < s.deadline →
        (schedStep R D s).2.t = s.t + SCHEDULE_CHECK_INTERVAL
        ∧ (schedStep R D s).2.deadline = s.deadline)
    ∧ (schedInit R).deadline = 0 + R ∧ (schedInit R).t = 0
    ∧ SCHEDULE_CHECK_INTERVAL = 60 := by
  refine ⟨?_, fun g hg => schedRun_reason R D n _ g hg, ?_, ?_, rfl, rfl, rfl⟩
  · have h1 : (schedInit R).t < (schedInit R).deadline := by
      show (0 : Nat) < 0 + R
      omega
    have h2 : (schedInit R).deadline + SCHEDULE_CHECK_INTERVAL
        ≤ (schedInit R).t + SCHEDULE_CHECK_INTERVAL * n := by
      show 0 + R + SCHEDULE_CHECK_INTERVAL ≤ 0 + SCHEDULE_CHECK_INTERVAL * n
      omega
    obtain ⟨f, rest, heq, hf1, hf2, hrest⟩ := schedRun_first_fire R D n (schedInit R) h1 h2
    have hf1' : 0 + R ≤ f := hf1
    have hf2' : f < 0 + R + SCHEDULE_CHECK_INTERVAL := hf2
    unfold schedFires
    rw [heq, List.countP_cons]
    have hpred : (decide (R ≤ f) && decide (f < R + SCHEDULE_CHECK_INTERVAL)) = true := by
      simp only [Bool.and_eq_true, decide_eq_true_eq]
      omega
    rw [if_pos hpred]
    have hrest0 : rest.countP
        (fun f => decide (R ≤ f.1) && decide (f.1 < R + SCHEDULE_CHECK_INTERVAL)) = 0 := by
      rw [List.countP_eq_zero]
      intro g hg
      have hglb := hrest g hg
      simp only [Bool.and_eq_true, decide_eq_true_eq, not_and]
      intro _
      omega
    omega
  · intro s hd
    unfold schedStep
    rw [if_pos hd]
    exact ⟨rfl, rfl⟩
  · intro s hd
    unfold schedStep
    rw [if_neg (by omega)]
    exact ⟨rfl, rfl⟩

/-- Witness for C5: restart interval 90s, restart duration 15s, three loop
iterations — the single scheduled restart fires at t = 120 ∈ [90, 150). -/
theorem c5_scheduled_restart_window_witness :
    0 < 90 ∧ 90 + SCHEDULE_CHECK_INTERVAL ≤ SCHEDULE_CHECK_INTERVAL * 3
    ∧ ((schedFires 90 15 3).countP
        (fun f => decide (90 ≤ f.1) && decide (f.1 < 90 + SCHEDULE_CHECK_INTERVAL)) = 1) :=
  ⟨by decide, by decide,
   (c5_scheduled_restart_window 90 15 3 (by decide) (by decide)).1⟩

/-- A top-level window as seen by `win32gui.EnumWindows`: handle, window
class, owning process id, visibility and enabled flags. -/
structure WinInfo where
  hwnd : Nat
  className : String
  pid : Nat
  visible : Bool
  enabled : Bool
deriving DecidableEq, Repr

/-- The window-class test of `find_our_browser_windows` (line 342):
`"Chrome_WidgetWin" in class_name or "Edge_WidgetWin" in class_name`. -/
def isBrowserWinClass (c : String) : Bool :=
  containsSub "Chrome_WidgetWin" c || containsSub "Edge_WidgetWin" c

/-- One `EnumWindows` pass of `find_our_browser_windows` (lines 334-349):
collects every visible, enabled window of a browser window class — with no
filtering on the owning process id. -/
def locateScan (ws : List WinInfo) : List WinInfo :=
  ws.filter fun w => w.visible && w.enabled && isBrowserWinClass w.className

/-- One `EnumWindows` pass of `find_all_browser_windows` (lines 407-416), the
diagnostic dump: visible browser-class windows (no enabled check there). -/
def dumpScan (ws : List WinInfo) : List WinInfo :=
  ws.filter fun w => w.visible && isBrowserWinClass w.className

/-- `max_attempts` of the window-location retry loop (line 331). -/
def MAX_ATTEMPTS : Nat := 10

/-- The retry delay in seconds between location attempts (line 371). -/
def RETRY_DELAY : Nat := 3

/-- Result of the window-location retry loop: the windows found by the last
scan, the number of attempts used, and the number of 3-second sleeps taken. -/
structure LocateResult where
  found : List WinInfo
  attempts : Nat
  sleeps : Nat
deriving DecidableEq, Repr

/-- The retry loop of `open_urls_in_tabs` (lines 351-371): up to the given
fuel more attempts; attempt `a+1` scans `registry (a+1)` (the window registry
at that attempt), breaks as soon as at least `required` windows are found,
otherwise sleeps `RETRY_DELAY` and retries. -/
def locateGo (registry : Nat → List WinInfo) (required : Nat) :
    Nat → Nat → Nat → List WinInfo → LocateResult
  | 0, a, s, prev => ⟨prev, a, s⟩
  | fuel+1, a, s, _ =>
    let found := locateScan (registry (a+1))
    if required ≤ found.length then ⟨found, a+1, s⟩
    else locateGo registry required fuel (a+1) (s+1) found

/-- The full window-location retry loop (attempt counter starting at 0,
`max_attempts = 10`). -/
def locateWindows (registry : Nat → List WinInfo) (required : Nat) : LocateResult :=
  locateGo registry required MAX_ATTEMPTS 0 0 []

lemma locateGo_spec (registry : Nat → List WinInfo) (required : Nat) :
    ∀ (fuel a s : Nat) (prev : List WinInfo), 1 ≤ fuel →
      a + 1 ≤ (locateGo registry required fuel a s prev).attempts
      ∧ (locateGo registry required fuel a s prev).attempts ≤ a + fuel
      ∧ (locateGo registry required fuel a s prev).found
          = locateScan (registry (locateGo registry required fuel a s prev).attempts)
      ∧ ((required ≤ (locateGo registry required fuel a s prev).found.length
            ∧ (locateGo registry required fuel a s prev).sleeps + a + 1
                = s + (locateGo registry required fuel a s prev).attempts)
         ∨ ((locateGo registry required fuel a s prev).found.length < required
            ∧ (locateGo registry required fuel a s prev).attempts = a + fuel
            ∧ (locateGo registry required fuel a s prev).sleeps = s + fuel)) := by
  intro fuel
  induction fuel with
  | zero => intro a s prev h; exact absurd h (by omega)
  | succ m ih =>
    intro a s prev _
    have hstep : locateGo registry required (m+1) a s prev
        = (if required ≤ (locateScan (registry (a+1))).length
           then ⟨locateScan (registry (a+1)), a+1, s⟩
           else locateGo registry required m (a+1) (s+1) (locateScan (registry (a+1)))) := rfl
    rw [hstep]
    by_cases hlen : required ≤ (locateScan (registry (a+1))).length
    · rw [if_pos hlen]
      refine ⟨?_, ?_, ?_, Or.inl ⟨?_, ?_⟩⟩ <;> dsimp only
      · omega
      · omega
      · exact hlen
      · omega
    · rw [if_neg hlen]
      by_cases hm : m = 0
      · subst hm
        have hzero : locateGo registry required 0 (a+1) (s+1) (locateScan (registry (a+1)))
            = ⟨locateScan (registry (a+1)), a+1, s+1⟩ := rfl
        rw [hzero]
        refine ⟨?_, ?_, ?_, Or.inr ⟨?_, ?_, ?_⟩⟩ <;> dsimp only
        all_goals omega
      · obtain ⟨g1, g2, g3, g4⟩ := ih (a+1) (s+1) (locateScan (registry (a+1))) (by omega)
        refine ⟨by omega, by omega, g3, ?_⟩
        rcases g4 with ⟨hl, he⟩ | ⟨hl, he1, he2⟩
        · exact Or.inl ⟨hl, by omega⟩
        · exact Or.inr ⟨hl, by omega, by omega⟩

/-- One SetWindowPos call of the cascade loop (lines 376-392): target window
index and the top-left coordinates passed. -/
structure PosCall where
  idx : Nat
  x : Int
  y : Int
deriving DecidableEq, Repr

/-- The flags passed to every `SetWindowPos` call (line 390): show the window
without resizing it, changing its Z-order, or activating it. -/
def SWP_SET_FLAGS : List String :=
  ["SWP_SHOWWINDOW", "SWP_NOZORDER", "SWP_NOACTIVATE", "SWP_NOSIZE"]

/-- The cascade repositioning loop (lines 374-401) over window indices
`i, i+1, ...` with `rem` windows left: window `i` goes to
`(i * offsetX, i * offsetY)`.  `fails k` models `SetWindowPos` raising for
window `k`; the loop body has no per-window handler, so a failure aborts the
remaining repositions (the exception lands in the handler at line 423).
Returns the calls performed and whether the loop aborted. -/
def cascadeGo (ox oy : Int) (fails : Nat → Bool) : Nat → Nat → List PosCall × Bool
  | 0, _ => ([], false)
  | rem+1, i =>
    if fails i then ([], true)
    else
      let rest := cascadeGo ox oy fails rem (i+1)
      (⟨i, (i : Int) * ox, (i : Int) * oy⟩ :: rest.1, rest.2)

/-- The cascade layout applied to the first `required` located windows. -/
def cascadeApply (ox oy : Int) (fails : Nat → Bool) (required : Nat) :
    List PosCall × Bool :=
  cascadeGo ox oy fails required 0

lemma cascadeGo_mem (ox oy : Int) (fails : Nat → Bool) :
    ∀ (rem i : Nat), ∀ c ∈ (cascadeGo ox oy fails rem i).1,
      c.x = (c.idx : Int) * ox ∧ c.y = (c.idx : Int) * oy
        ∧ i ≤ c.idx ∧ c.idx < i + rem := by
  intro rem
  induction rem with
  | zero => intro i c hc; simp [cascadeGo] at hc
  | succ m ih =>
    intro i c hc
    unfold cascadeGo at hc
    by_cases hf : fails i = true
    · rw [if_pos hf] at hc
      simp at hc
    · rw [if_neg hf] at hc
      simp only [List.mem_cons] at hc
      rcases hc with hc | hc
      · subst hc
        refine ⟨rfl, rfl, ?_, ?_⟩ <;> dsimp only <;> omega
      · obtain ⟨e1, e2, e3, e4⟩ := ih (i+1) c hc
        exact ⟨e1, e2, by omega, by omega⟩

lemma cascadeGo_noFail (ox oy : Int) (fails : Nat → Bool) :
    ∀ (rem i : Nat), (∀ k, i ≤ k → k < i + rem → fails k = false) →
      cascadeGo ox oy fails rem i
        = ((List.range' i rem).map (fun k => ⟨k, (k : Int) * ox, (k : Int) * oy⟩), false) := by
  intro rem
  induction rem with
  | zero => intro i h; simp [cascadeGo]
  | succ m ih =>
    intro i h
    have hi : fails i = false := h i (le_refl i) (by omega)
    unfold cascadeGo
    rw [if_neg (by simp [hi])]
    rw [ih (i+1) (fun k hk1 hk2 => h k (by omega) (by omega))]
    rw [List.range'_succ]
    simp

lemma cascadeGo_firstFail (ox oy : Int) (fails : Nat → Bool) :
    ∀ (rem i j : Nat), i ≤ j → j < i + rem → fails j = true →
      (∀ k, i ≤ k → k < j → fails k = false) →
      cascadeGo ox oy fails rem i
        = ((List.range' i (j - i)).map (fun k => ⟨k, (k : Int) * ox, (k : Int) * oy⟩), true) := by
  intro rem
  induction rem with
  | zero => intro i j h1 h2 _ _; exact absurd h2 (by omega)
  | succ m ih =>
    intro i j h1 h2 hj hk
    by_cases hij : i = j
    · subst hij
      unfold cascadeGo
      rw [if_pos hj]
      simp
    · have hi : fails i = false := hk i (le_refl i) (by omega)
      unfold cascadeGo
      rw [if_neg (by simp [hi])]
      rw [ih (i+1) j (by omega) (by omega) hj (fun k hk1 hk2 => hk k (by omega) hk2)]
      have hsub : j - i = (j - (i+1)) + 1 := by omega
      rw [hsub, List.range'_succ]
      simp

/-- Outcome of one launch-and-locate pass of `open_urls_in_tabs`
(lines 316-425): located windows, retry statistics, whether the cascade
layout ran and its calls, whether it aborted, and the diagnostic dump. -/
structure LaunchLocateOutcome where
  found : List WinInfo
  attempts : Nat
  sleeps : Nat
  layoutApplied : Bool
  posCalls : List PosCall
  aborted : Bool
  dump : List WinInfo
  dumpLogged : Bool
deriving DecidableEq, Repr

/-- The locate-and-layout phase of `open_urls_in_tabs` (lines 316-425): run
the retry loop; if at least `required` windows were found, run the cascade
loop over the first `required` of them; finally (the block at lines 406-419
sits outside the if/else, so it runs in either case — unless a reposition
exception jumped to the handler) enumerate and log all visible browser
windows. -/
def open_urls_locate_layout (registry : Nat → List WinInfo) (required : Nat)
    (ox oy : Int) (fails : Nat → Bool) : LaunchLocateOutcome :=
  let r := locateWindows registry required
  let c := if required ≤ r.found.length then cascadeApply ox oy fails required
           else ([], false)
  { found := r.found
    attempts := r.attempts
    sleeps := r.sleeps
    layoutApplied := decide (required ≤ r.found.length)
    posCalls := c.1
    aborted := c.2
    dump := dumpScan (registry (r.attempts + 1))
    dumpLogged := !c.2 }

/-- Counterexample to claim C6: with two located windows and a reposition
failure on window 0, no window is repositioned at all — in particular window 1
(offsets 120×75, claim-expected position (120, 75)) is never positioned,
because the exception escapes the per-window loop; the claim said the
remaining windows would still be repositioned. -/
theorem c6_counterexample_reposition_failure_aborts_rest :
    (cascadeApply 120 75 (fun i => i == 0) 2).1 = []
    ∧ (cascadeApply 120 75 (fun i => i == 0) 2).2 = true
    ∧ (⟨1, 120, 75⟩ : PosCall) ∉ (cascadeApply 120 75 (fun i => i == 0) 2).1 := by
  refine ⟨rfl, rfl, ?_⟩
  decide

/-- Claim C6 (amended): the cascade layout positions the window at 0-based
index `i` at exactly `(i * offsetX, i * offsetY)` — no clamping — with
SetWindowPos flags preserving size, Z-order and activation, and touches only
the first `expectedCount` located windows; but a failure to reposition one
window aborts repositioning of all remaining windows (the failure is logged
by the enclosing handler): with no failure all `expectedCount` windows are
positioned, and with a first failure at index `j` exactly windows `0..j-1`
are positioned. -/
theorem c6_amended_cascade_layout (ox oy : Int) (fails : Nat → Bool) (required : Nat) :
    (∀ c ∈ (cascadeApply ox oy fails required).1,
        c.x = (c.idx : Int) * ox ∧ c.y = (c.idx : Int) * oy ∧ c.idx < required)
    ∧ ((∀ k, k < required → fails k = false) →
        cascadeApply ox oy fails required
          = ((List.range required).map (fun k => ⟨k, (k : Int) * ox, (k : Int) * oy⟩), false))
    ∧ (∀ j, j < required → fails j = true → (∀ k, k < j → fails k = false) →
        cascadeApply ox oy fails required
          = ((List.range j).map (fun k => ⟨k, (k : Int) * ox, (k : Int) * oy⟩), true))
    ∧ "SWP_NOSIZE" ∈ SWP_SET_FLAGS ∧ "SWP_NOZORDER" ∈ SWP_SET_FLAGS
    ∧ "SWP_NOACTIVATE" ∈ SWP_SET_FLAGS ∧ "SWP_SHOWWINDOW" ∈ SWP_SET_FLAGS := by
  refine ⟨?_, ?_, ?_, by decide, by decide, by decide, by decide⟩
  · intro c hc
    obtain ⟨e1, e2, e3, e4⟩ := cascadeGo_mem ox oy fails required 0 c hc
    exact ⟨e1, e2, by omega⟩
  · intro h
    unfold cascadeApply
    rw [cascadeGo_noFail ox oy fails required 0 (fun k _ hk2 => h k (by omega))]
    rw [List.range_eq_range']
  · intro j hj hfj hk
    unfold cascadeApply
    rw [cascadeGo_firstFail ox oy fails required 0 j (by omega) (by omega) hfj
      (fun k _ hk2 => hk k hk2)]
    rw [List.range_eq_range']
    simp

/-- Witness for the amended C6: offsets 120×75, three windows, no failure —
all three windows are positioned at (0,0), (120,75), (240,150). -/
theorem c6_amended_cascade_layout_witness :
    cascadeApply 120 75 (fun _ => false) 3
      = ((List.range 3).map (fun k => ⟨k, (k : Int) * 120, (k : Int) * 75⟩), false) :=
  (c6_amended_cascade_layout 120 75 (fun _ => false) 3).2.1 (fun _ _ => rfl)

/-- Claim C7: the locator collects every visible, enabled window whose class
marks a browser window — membership depends on no process id — and retries up
to 10 attempts with a 3-second delay between attempts until at least
`required` windows are found, otherwise returning the partial last scan after
all 10 attempts; on a partial result the layout is skipped and the diagnostic
dump still runs. -/
theorem c7_window_locator_retry_and_give_up (registry : Nat → List WinInfo)
    (required : Nat) (ox oy : Int) (fails : Nat → Bool) :
    (∀ (ws : List WinInfo) (w : WinInfo), w ∈ locateScan ws ↔
        (w ∈ ws ∧ w.visible = true ∧ w.enabled = true
          ∧ isBrowserWinClass w.className = true))
    ∧ 1 ≤ (locateWindows registry required).attempts
    ∧ (locateWindows registry required).attempts ≤ MAX_ATTEMPTS
    ∧ MAX_ATTEMPTS = 10 ∧ RETRY_DELAY = 3
    ∧ (locateWindows registry required).found
        = locateScan (registry (locateWindows registry required).attempts)
    ∧ (required ≤ (locateWindows registry required).found.length
        ∨ (locateWindows registry required).attempts = MAX_ATTEMPTS)
    ∧ (required ≤ (locateWindows registry required).found.length →
        (locateWindows registry required).sleeps + 1
          = (locateWindows registry required).attempts)
    ∧ ((locateWindows registry required).found.length < required →
        (locateWindows registry required).sleeps = MAX_ATTEMPTS
        ∧ (open_urls_locate_layout registry required ox oy fails).layoutApplied = false
        ∧ (open_urls_locate_layout registry required ox oy fails).posCalls = []
        ∧ (open_urls_locate_layout registry required ox oy fails).dumpLogged = true) := by
  obtain ⟨g1, g2, g3, g4⟩ := locateGo_spec registry required MAX_ATTEMPTS 0 0 [] (by decide)
  unfold locateWindows
  refine ⟨?_, by omega, by omega, rfl, rfl, g3, ?_, ?_, ?_⟩
  · intro ws w
    simp [locateScan, List.mem_filter, Bool.and_eq_true, and_assoc]
  · rcases g4 with ⟨hl, _⟩ | ⟨_, he, _⟩
    · exact Or.inl hl
    · exact Or.inr (by omega)
  · intro hl
    rcases g4 with ⟨_, he⟩ | ⟨hl2, _, _⟩
    · omega
    · omega
  · intro hl
    have hnotle : ¬ required ≤ (locateGo registry required MAX_ATTEMPTS 0 0 []).found.length := by
      omega
    refine ⟨?_, ?_, ?_, ?_⟩
    · rcases g4 with ⟨hl2, _⟩ | ⟨_, _, he⟩
      · omega
      · omega
    · show decide (required ≤ (locateGo registry required MAX_ATTEMPTS 0 0 []).found.length)
          = false
      exact decide_eq_false hnotle
    · show (if required ≤ (locateGo registry required MAX_ATTEMPTS 0 0 []).found.length
          then cascadeApply ox oy fails required else ([], false)).1 = []
      rw [if_neg hnotle]
    · show (!(if required ≤ (locateGo registry required MAX_ATTEMPTS 0 0 []).found.length
          then cascadeApply ox oy fails required else ([], false)).2) = true
      rw [if_neg hnotle]
      rfl

/-- Witness for C7: an always-empty window registry with one expected window —
all 10 attempts are used and sleep, the layout is skipped, and the dump still
runs. -/
def registryEmpty : Nat → List WinInfo := fun _ => []

theorem c7_window_locator_retry_and_give_up_witness :
    (locateWindows registryEmpty 1).found.length < 1
    ∧ (locateWindows registryEmpty 1).sleeps = MAX_ATTEMPTS
    ∧ (open_urls_locate_layout registryEmpty 1 120 75 (fun _ => false)).layoutApplied = false
    ∧ (open_urls_locate_layout registryEmpty 1 120 75 (fun _ => false)).posCalls = []
    ∧ (open_urls_locate_layout registryEmpty 1 120 75 (fun _ => false)).dumpLogged = true :=
  ⟨by decide,
   (c7_window_locator_retry_and_give_up registryEmpty 1 120 75 (fun _ => false)).2.2.2.2.2.2.2.2
     (by decide)⟩

/-- Claim C10: the diagnostic enumeration of all currently visible browser
windows (lines 406-419 sit outside the if/else of line 374) runs on every
completed pass — also when enough windows were found and the layout was
applied — provided no reposition exception jumped to the handler. -/
theorem c10_diagnostic_dump_unconditional (registry : Nat → List WinInfo)
    (required : Nat) (ox oy : Int) (fails : Nat → Bool)
    (hab : (open_urls_locate_layout registry required ox oy fails).aborted = false) :
    (open_urls_locate_layout registry required ox oy fails).dumpLogged = true
    ∧ (open_urls_locate_layout registry required ox oy fails).dump
        = dumpScan (registry
            ((open_urls_locate_layout registry required ox oy fails).attempts + 1)) := by
  constructor
  · have h : (open_urls_locate_layout registry required ox oy fails).dumpLogged
        = !(open_urls_locate_layout registry required ox oy fails).aborted := rfl
    rw [h, hab]
    rfl
  · rfl

/-- Witness for C10: a registry with one visible enabled Chrome window and one
expected window — the layout is applied on attempt 1 and the dump still runs. -/
def registryOne : Nat → List WinInfo := fun _ => [⟨1, "Chrome_WidgetWin_1", 501, true, true⟩]

theorem c10_diagnostic_dump_unconditional_witness :
    (open_urls_locate_layout registryOne 1 120 75 (fun _ => false)).layoutApplied = true
    ∧ (open_urls_locate_layout registryOne 1 120 75 (fun _ => false)).dumpLogged = true
    ∧ (open_urls_locate_layout registryOne 1 120 75 (fun _ => false)).dump
        = dumpScan (registryOne
            ((open_urls_locate_layout registryOne 1 120 75 (fun _ => false)).attempts + 1)) :=
  ⟨by decide,
   (c10_diagnostic_dump_unconditional registryOne 1 120 75 (fun _ => false) (by decide)).1,
   (c10_diagnostic_dump_unconditional registryOne 1 120 75 (fun _ => false) (by decide)).2⟩
